import Mathlib

set_option linter.unusedVariables false

/-!
Verification of the goamz retry/attempt strategy and the S3 dispatch and
error-classification code.

Times (`time.Time`) and durations (`time.Duration`) are modelled as
unbounded integers counting nanoseconds; the Go code performs no
arithmetic anywhere near the int64 boundary.  Effectful calls
(`time.Now`, `time.Sleep`, network transmission) are modelled by passing
the clock readings and transport outcomes in as explicit parameters.

The file is organised as: definitions (namespaces `aws`, then `s3`),
followed by the theorems about them.
-/

namespace aws

/-- `FixedAttemptStrategy` from `aws/attempt.go`: fixed backoff between
attempts, a total duration, and a minimum number of attempts. -/
structure FixedAttemptStrategy where
  Total : Int
  Delay : Int
  Min : Int
deriving Repr, DecidableEq

/-- `FixedAttempt` from `aws/attempt.go`.  The Go field `end` is a Lean
keyword, rendered `end_`. -/
structure FixedAttempt where
  strategy : FixedAttemptStrategy
  last : Int
  end_ : Int
  force : Bool
  count : Int
deriving Repr, DecidableEq

/-- `FixedAttemptStrategy.Start`: `now` is the value `time.Now()` read at
the call. -/
def FixedAttemptStrategy.Start (s : FixedAttemptStrategy) (now : Int) : FixedAttempt :=
  { strategy := s, last := now, end_ := now + s.Total, force := true, count := 0 }

/-- `FixedAttempt.nextSleep`: `a.strategy.Delay - now.Sub(a.last)`, clamped
at zero. -/
def FixedAttempt.nextSleep (a : FixedAttempt) (now : Int) : Int :=
  if a.strategy.Delay - (now - a.last) < 0 then 0
  else a.strategy.Delay - (now - a.last)

/-- `FixedAttempt.Next`.  `now` is the clock at entry; `now2` is the clock
re-read after `time.Sleep(sleep)` in the branch that sleeps (in a real run
`now2 ≥ now + sleep`).  Returns the updated attempt (the Go method mutates
the receiver) and the boolean result.  The `err` argument of the Go method
is ignored by the implementation and is omitted. -/
def FixedAttempt.Next (a : FixedAttempt) (now now2 : Int) : FixedAttempt × Bool :=
  if !a.force && !(now + a.nextSleep now < a.end_) && a.strategy.Min ≤ a.count then
    (a, false)
  else
    ({ a with
        force := false
        count := a.count + 1
        last := (if a.nextSleep now > 0 && a.count > 0 then now2 else now) }, true)

/-- `FixedAttempt.HasNext`.  `now` is the value `time.Now()` read inside
the method.  The Go method mutates the receiver in its third branch
(`a.force = true`), so the model returns the updated attempt as well. -/
def FixedAttempt.HasNext (a : FixedAttempt) (now : Int) : FixedAttempt × Bool :=
  if a.force || a.strategy.Min > a.count then
    (a, true)
  else if now + a.nextSleep now < a.end_ then
    ({ a with force := true }, true)
  else
    (a, false)

/-- Runs a sequence of `Next` calls; each list element provides the two
clock readings of one call.  Returns the boolean results in order. -/
def runNexts (a : FixedAttempt) : List (Int × Int) → List Bool
  | [] => []
  | (n, n2) :: ts =>
    let r := a.Next n n2
    r.2 :: runNexts r.1 ts

/-- `aws.Auth` (declared outside src/): access key, secret key and
optional session token, per the spec's Credentials data model.  `Token()`
returns the session token. -/
structure Auth where
  AccessKey : String := ""
  SecretKey : String := ""
  token : String := ""
deriving Repr, DecidableEq

/-- `aws.Auth.Token`. -/
def Auth.Token (a : Auth) : String := a.token

/-- The S3-relevant fields of `aws.Region` (the region literals are in
src/; the other per-service endpoint fields are never read by the code
under verification and are elided). -/
structure Region where
  Name : String := ""
  S3Endpoint : String := ""
  S3BucketEndpoint : String := ""
  S3LocationConstraint : Bool := false
  S3LowercaseBucket : Bool := false
deriving Repr, DecidableEq

/-- Concrete instance of `claim_next_spec`. -/
def nextSpecWitnessAttempt : FixedAttempt :=
  { strategy := { Total := 100, Delay := 10, Min := 2 }
    last := 0, end_ := 100, force := false, count := 1 }

/-- Concrete state for the C2 witness: not forced, below `Min`. -/
def hasNextWitnessAttempt : FixedAttempt :=
  { strategy := { Total := 100, Delay := 10, Min := 3 }
    last := 0, end_ := 100, force := false, count := 0 }

/-- Concrete state refuting purity of `HasNext`: not forced, `Min`
reached, but time remains before `end`. -/
def hasNextMutationAttempt : FixedAttempt :=
  { strategy := { Total := 10, Delay := 0, Min := 0 }
    last := 0, end_ := 10, force := false, count := 0 }

/-- Concrete state for the C4 witness: already exhausted. -/
def exhaustionWitnessAttempt : FixedAttempt :=
  { strategy := { Total := 0, Delay := 0, Min := 0 }
    last := 0, end_ := 0, force := false, count := 1 }

end aws

namespace s3

/-- Whether `pre` is an initial segment of `s` (character lists). -/
def listStartsWith : List Char → List Char → Bool
  | _, [] => true
  | [], _ :: _ => false
  | c :: cs, p :: ps => c = p && listStartsWith cs ps

/-- `strings.HasPrefix` / `String.startsWith` (structural, so that closed
instances evaluate). -/
def goStartsWith (s pre : String) : Bool :=
  listStartsWith s.toList pre.toList

/-- `strings.ToLower` (the classifier only ever lowercases ASCII
messages). -/
def goToLower (s : String) : String :=
  String.mk (s.toList.map Char.toLower)

/-- Substring search over character lists. -/
def listContainsSub : List Char → List Char → Bool
  | [], sub => sub.isEmpty
  | c :: cs, sub => listStartsWith (c :: cs) sub || listContainsSub cs sub

/-- `strings.Contains`. -/
def goContains (s sub : String) : Bool :=
  listContainsSub s.toList sub.toList

/-- Valid MIME header key byte, per Go `textproto` (digits, letters and
the punctuation of the token character set). -/
def validHeaderFieldChar (c : Char) : Bool :=
  let n := c.toNat
  (48 ≤ n && n ≤ 57) || (65 ≤ n && n ≤ 90) || (97 ≤ n && n ≤ 122) ||
    [33, 35, 36, 37, 38, 39, 42, 43, 45, 46, 94, 95, 96, 124, 126].contains n

/-- Case folding of `textproto.CanonicalMIMEHeaderKey`: uppercase the
first letter and every letter following a hyphen, lowercase the rest. -/
def canonicalChars : Bool → List Char → List Char
  | _, [] => []
  | upper, c :: rest =>
    (if upper then c.toUpper else c.toLower) :: canonicalChars (c = Char.ofNat 45) rest

/-- `textproto.CanonicalMIMEHeaderKey`: returns the argument unchanged if
it contains a byte outside the header token set. -/
def canonicalMIMEHeaderKey (s : String) : String :=
  if s.toList.all validHeaderFieldChar then
    String.mk (canonicalChars true s.toList)
  else s

/-- `http.Header` / `map[string][]string`, modelled as an association
list with at most one binding per key. -/
abbrev Header := List (String × List String)

/-- Go map lookup `h[k]` (exact key). -/
def headerLookup : Header → String → Option (List String)
  | [], _ => none
  | (k, v) :: t, key => if k = key then some v else headerLookup t key

/-- Go map assignment `h[k] = v` (exact key; replaces any existing
binding). -/
def headerSet : Header → String → List String → Header
  | [], k, v => [(k, v)]
  | (k', v') :: t, k, v => if k' = k then (k, v) :: t else (k', v') :: headerSet t k v

/-- `http.Header.Get`: canonicalizes the key and returns the first value,
or the empty string. -/
def Header.Get (h : Header) (key : String) : String :=
  match headerLookup h (canonicalMIMEHeaderKey key) with
  | some (v :: _) => v
  | _ => ""

/-- `Error` from `s3/glacier.go` (an error from an operation with S3). -/
structure Error where
  StatusCode : Int
  Code : String
  Message : String
  BucketName : String := ""
  RequestId : String := ""
  HostId : String := ""
  ResponseHeaders : Header := []
deriving Repr, DecidableEq

set_option linter.dupNamespace false in
/-- The `Error() string` method of `*Error`: returns the message. -/
def Error.Error (e : Error) : String := e.Message

/-- The error values the retry classifier distinguishes: `*s3.Error`,
`*url.Error` wrappers, `*net.OpError`, `*net.DNSError`, the two `io`
sentinels, plain `errors.New`/`fmt.Errorf` values, and arbitrary other
values that may or may not carry `Timeout()`/`Temporary()` capability
methods. -/
inductive GoErr where
  | s3 (e : Error)
  | urlError (op u : String) (inner : GoErr)
  | opError (op msg : String) (timeout temporary : Bool)
  | dnsError (msg : String) (timeout temporary : Bool)
  | eof
  | unexpectedEOF
  | goError (msg : String)
  | capError (msg : String) (timeout temporary : Option Bool)
deriving Repr, DecidableEq

/-- The `Error() string` method of each error kind.  Only the literal
comparisons performed by the classifier matter; composite messages follow
the shape of the Go formatting. -/
def GoErr.errString : GoErr → String
  | .s3 e => e.Error
  | .urlError op u inner => op ++ " " ++ u ++ ": " ++ inner.errString
  | .opError _ msg _ _ => msg
  | .dnsError msg _ _ => msg
  | .eof => "EOF"
  | .unexpectedEOF => "unexpected EOF"
  | .goError msg => msg
  | .capError msg _ _ => msg

/-- Whether the dynamic type has a `Timeout() bool` method, and its
answer.  `*s3.Error`, the `io` sentinels and plain error strings have
none; `net` errors and `url.Error` do. -/
def GoErr.timeoutCap : GoErr → Option Bool
  | .s3 _ => none
  | .urlError _ _ inner => some (inner.timeoutCap.getD false)
  | .opError _ _ t _ => some t
  | .dnsError _ t _ => some t
  | .eof => none
  | .unexpectedEOF => none
  | .goError _ => none
  | .capError _ t _ => t

/-- Whether the dynamic type has a `Temporary() bool` method, and its
answer. -/
def GoErr.temporaryCap : GoErr → Option Bool
  | .s3 _ => none
  | .urlError _ _ inner => some (inner.temporaryCap.getD false)
  | .opError _ _ _ t => some t
  | .dnsError _ _ t => some t
  | .eof => none
  | .unexpectedEOF => none
  | .goError _ => none
  | .capError _ _ t => t

/-- The error codes retried regardless of status, from both classifier
policies. -/
def retryCodes : List String :=
  ["InternalError", "NoSuchUpload", "NoSuchBucket", "RequestTimeout"]

/-- The `net.OpError` operations retried by `shouldRetrySpecific`. -/
def opRetryList : List String := ["read", "write", "WSARecv", "WSASend", "ConnectEx"]

/-- `shouldRetryConflictError` from `s3/glacier.go`.  The Go function
panics when the status code is not 409; both callers guard the call with
`StatusCode == 409`, and the unreachable branch is modelled as `false`. -/
def shouldRetryConflictError (err : Error) : Bool :=
  if err.StatusCode ≠ 409 then false
  else if ¬ goStartsWith (Header.Get err.ResponseHeaders "Server") "HCP" then true
  else if err.Code = "OperationAborted" &&
      goContains (goToLower err.Error) "conflicting operation" then true
  else false

/-- The `*Error` case of the type switch in `shouldRetrySpecific`. -/
def shouldRetrySpecificS3 (e : Error) : Bool :=
  if retryCodes.contains e.Code then true
  else if 500 ≤ e.StatusCode && e.StatusCode ≤ 599 then true
  else if e.StatusCode = 429 then true
  else if e.StatusCode = 409 then shouldRetryConflictError e
  else if e.StatusCode = 400 && e.Code = "" then true
  else false

/-- Body of `shouldRetrySpecific` after the `url.Error` unwrap: the
capability checks, the fixed message comparisons, the `io` sentinel
comparisons, and the type switch. -/
def shouldRetrySpecificBody (err : GoErr) : Bool :=
  if err.timeoutCap.getD false then true
  else if err.temporaryCap.getD false then true
  else if err.errString = "net/http: request canceled while waiting for connection" then true
  else if err.errString = "use of closed network connection" then true
  else
    match err with
    | .unexpectedEOF => true
    | .eof => true
    | .dnsError _ _ _ => true
    | .opError op _ _ _ => opRetryList.contains op
    | .s3 e => shouldRetrySpecificS3 e
    | _ => false

/-- `shouldRetrySpecific` from `s3/glacier.go`. -/
def shouldRetrySpecific (err : GoErr) : Bool :=
  match err with
  | .urlError _ _ inner =>
    if inner.errString = "http: can't write HTTP request on broken connection" then true
    else shouldRetrySpecificBody inner
  | e => shouldRetrySpecificBody e

/-- The body of `shouldRetryAlmostAll` after the `url.Error` unwrap. -/
def shouldRetryAlmostAllBody : GoErr → Bool
  | .s3 e =>
    if e.StatusCode < 500 then
      if retryCodes.contains e.Code then true
      else if e.StatusCode = 429 then true
      else if e.StatusCode = 409 then shouldRetryConflictError e
      else if e.StatusCode = 400 && e.Code = "" then true
      else false
    else true
  | _ => true

/-- `shouldRetryAlmostAll` from `s3/glacier.go`. -/
def shouldRetryAlmostAll (err : GoErr) : Bool :=
  match err with
  | .urlError _ _ inner => shouldRetryAlmostAllBody inner
  | e => shouldRetryAlmostAllBody e

/-- `ShouldRetry` from `s3/glacier.go`; the process-wide mutable flag
`RetryAlmostAllErrors` (default true) is passed explicitly, and a Go
`nil` error is `none`. -/
def ShouldRetry (retryAlmostAllErrors : Bool) (err : Option GoErr) : Bool :=
  match err with
  | none => false
  | some e =>
    if retryAlmostAllErrors then shouldRetryAlmostAll e else shouldRetrySpecific e

/-- `strings.Replace(s, old, new, -1)`: replaces every non-overlapping
occurrence, left to right.  Structural recursion on a character budget
(`s.length` suffices since a nonempty `old` consumes at least one
character per occurrence). -/
def listReplaceAux : Nat → List Char → List Char → List Char → List Char
  | 0, s, _, _ => s
  | fuel + 1, s, old, new =>
    match s with
    | [] => []
    | c :: cs =>
      if listStartsWith (c :: cs) old && !old.isEmpty then
        new ++ listReplaceAux fuel ((c :: cs).drop old.length) old new
      else c :: listReplaceAux fuel cs old new

/-- `strings.Replace` with count `-1`. -/
def goReplaceAll (s old new : String) : String :=
  String.mk (listReplaceAux s.toList.length s.toList old.toList new.toList)

/-- Scans for `://` and returns the remainder after it. -/
def afterSchemeAux : List Char → Option (List Char)
  | [] => none
  | c :: cs =>
    if listStartsWith (c :: cs) [':', '/', '/'] then some (cs.drop 2)
    else afterSchemeAux cs

/-- Model of `net/url` parsing as used by `prepare` and `request.url()`:
extracts the host of the base URL (the text between `://` and the next
slash; empty when the URL has no scheme part).  Parsing fails on control
bytes, the relevant failure mode of the Go parser. -/
def parseURLHost (s : String) : Option String :=
  if s.toList.any (fun c => c.toNat < 32 || c.toNat = 127) then none
  else
    match afterSchemeAux s.toList with
    | none => some ""
    | some rest => some (String.mk (rest.takeWhile (fun c => c ≠ Char.ofNat 47)))

/-- Uppercase hexadecimal digit. -/
def hexDigitChar (n : Nat) : Char :=
  if n < 10 then Char.ofNat (48 + n) else Char.ofNat (55 + n)

/-- Characters a URL path keeps unescaped (unreserved plus the sub-delims
and `:@/` that Go's path encoder allows). -/
def pathSafeChar (c : Char) : Bool :=
  c.isAlphanum ||
    [33, 36, 38, 39, 40, 41, 42, 43, 44, 45, 46, 47, 58, 59, 61, 64, 95, 126].contains c.toNat

/-- Model of `(&url.URL{Path: signpath}).String()`: percent-escapes the
path (single-byte characters; the requests under verification are
ASCII). -/
def pathEscape (s : String) : String :=
  String.mk
    ((s.toList.map (fun c =>
      if pathSafeChar c then [c]
      else [Char.ofNat 37, hexDigitChar (c.toNat / 16 % 16), hexDigitChar (c.toNat % 16)])).flatten)

/-- `request` from `s3/glacier.go`.  The `payload` reader, the `timeout`
and the dead `signpath` field are I/O plumbing never read by the modelled
control flow and are elided. -/
structure request where
  method : String := ""
  bucket : String := ""
  path : String := ""
  params : Header := []
  headers : Header := []
  baseurl : String := ""
  prepared : Bool := false
deriving Repr, DecidableEq

/-- The constant `sseHeaderKey`. -/
def sseHeaderKey : String := "x-amz-server-side-encryption"

/-- `AddHeaderSSE`: requests server-side encryption (stored under the
canonicalized key, as the Go code does via
`textproto.CanonicalMIMEHeaderKey`). -/
def AddHeaderSSE (headers : Header) : Header :=
  headerSet headers (canonicalMIMEHeaderKey sseHeaderKey) ["AES256"]

/-- `GetHeaderSSE`: the server-side-encryption header value, or the empty
string; looked up under the canonicalized key. -/
def GetHeaderSSE (headers : Header) : String :=
  match headerLookup headers (canonicalMIMEHeaderKey sseHeaderKey) with
  | some (v :: _) => v
  | _ => ""

/-- The fields of `http.Response` the dispatch code reads. -/
structure HttpResponse where
  StatusCode : Int := 200
  Header : Header := []
deriving Repr, DecidableEq

/-- The `S3` client type from `s3/glacier.go`: the fields read by the
code under verification (auth, region, the SigV4 flag).  The timeout
fields, the cached `http.Client`, the root-CA pool and the V4 signer
object are I/O plumbing never consulted by the modelled control flow and
are elided. -/
structure S3 where
  Auth : aws.Auth
  Region : aws.Region
  AttemptStrategy : aws.FixedAttemptStrategy :=
    { Total := 5000000000, Delay := 200000000, Min := 5 }
  v4sign : Bool := false
deriving Repr, DecidableEq

/-- `NewWithCustomRootCAsV4` from `s3/glacier.go`.  Its first statement
calls itself with the same arguments, so the Go function never returns;
the recursion is modelled with explicit fuel, `none` standing for
non-termination.  The certificate-pool and optional-client arguments do
not affect control flow and are elided. -/
def NewWithCustomRootCAsV4 (fuel : Nat) (auth : aws.Auth) (region : aws.Region) :
    Option S3 :=
  match fuel with
  | 0 => none
  | n + 1 =>
    (NewWithCustomRootCAsV4 n auth region).map (fun client => { client with v4sign := true })

/-- Modelled from the spec: the SigV2 `sign` function (the package's
`sign.go`) is not under src/.  Per spec §4.2 the signer mutates the
request's header set, finally adding the authorization header derived
from the credentials and the canonical request data.  The signature
string itself is opaque to every claim and is modelled as a deterministic
encoding of the sign inputs. -/
def signV2 (auth : aws.Auth) (method signpath : String) (params : Header)
    (headers : Header) : Header :=
  headerSet headers "Authorization"
    ["AWS " ++ auth.AccessKey ++ ":" ++ method ++ "|" ++ signpath ++ "|" ++
      toString params.length]

/-- First step of the `if !req.prepared` block of `S3.prepare`: mark the
request prepared.  (Go also copies the params and headers maps here so
retries can mutate them safely; with value semantics the copy is the
identity.) -/
def mungeSetPrepared (req0 : request) : request :=
  { req0 with prepared := true }

/-- `if req.method == "" { req.method = "GET" }`. -/
def mungeDefaultMethod (r : request) : request :=
  if r.method = "" then { r with method := "GET" } else r

/-- `if !strings.HasPrefix(req.path, "/") { req.path = "/" + req.path }`. -/
def mungeLeadingSlash (r : request) : request :=
  if ¬ goStartsWith r.path "/" then { r with path := "/" ++ r.path } else r

/-- The bucket block of `S3.prepare`: choose the base URL (path-style or
bucket endpoint), apply the bucket prefix to the path and the local
`signpath`, and reject injection-prone bucket names. -/
def mungeBucket (s3 : S3) (r : request) : Except GoErr (request × String) :=
  if r.bucket ≠ "" then
    if s3.Region.S3BucketEndpoint = "" then
      .ok ({ r with
              baseurl := s3.Region.S3Endpoint
              path := "/" ++ r.bucket ++ r.path },
        "/" ++ r.bucket ++ r.path)
    else if r.bucket.toList.any (fun c => [47, 58, 64].contains c.toNat) then
      .error (.goError ("bad S3 bucket: " ++ r.bucket))
    else
      .ok ({ r with
              baseurl := goReplaceAll s3.Region.S3BucketEndpoint "$\x7bbucket\x7d" r.bucket },
        "/" ++ r.bucket ++ r.path)
  else .ok (r, r.path)

/-- The `if !req.prepared` block of `S3.prepare`: fill in the default
method, normalize the leading slash, compute the base URL and apply the
bucket prefix, and return the updated request together with the local
`signpath`.  When the request is already prepared the block is skipped
and `signpath` is the (already munged) `req.path`. -/
def prepareMunge (s3 : S3) (req0 : request) : Except GoErr (request × String) :=
  if req0.prepared then .ok (req0, req0.path)
  else mungeBucket s3 (mungeLeadingSlash (mungeDefaultMethod (mungeSetPrepared req0)))

/-- The header mutations at the end of `S3.prepare`: `Host`, `Date`, the
optional security token, and (for SigV2 clients) the authorization
header. -/
def prepareHeaders (s3 : S3) (method signpath : String) (params : Header)
    (headers : Header) (host gmtDate : String) : Header :=
  let h1 := headerSet headers "Host" [host]
  let h2 := headerSet h1 "Date" [gmtDate]
  let h3 := if s3.Auth.Token ≠ "" then headerSet h2 "X-Amz-Security-Token" [s3.Auth.Token]
    else h2
  if s3.v4sign = false then signV2 s3.Auth method (pathEscape signpath) params h3 else h3

/-- The unconditional tail of `S3.prepare`: parse the base URL and set the
derived headers.  `gmtDate` is the formatted `time.Now()` value. -/
def prepareFinish (s3 : S3) (r : request) (signpath gmtDate : String) :
    Except GoErr request :=
  match parseURLHost r.baseurl with
  | none => .error (.goError ("bad S3 endpoint URL " ++ r.baseurl))
  | some host =>
    .ok { r with headers := prepareHeaders s3 r.method signpath r.params r.headers host gmtDate }

/-- `S3.prepare` from `s3/glacier.go`. -/
def prepare (s3 : S3) (req0 : request) (gmtDate : String) : Except GoErr request :=
  match prepareMunge s3 req0 with
  | .error e => .error e
  | .ok (r, signpath) => prepareFinish s3 r signpath gmtDate

/-- `S3.query` from `s3/glacier.go`: prepare, run, then verify a
requested server-side-encryption property on the response.  `run`
performs network I/O; its outcome is supplied as `runOutcome`.  The XML
decoding of the body into `resp` is I/O as well and carries no
information the claims consult, so the success value is `Unit`. -/
def query (s3 : S3) (req : request) (gmtDate : String)
    (runOutcome : Except GoErr HttpResponse) : Except GoErr Unit :=
  match prepare s3 req gmtDate with
  | .error e => .error e
  | .ok req2 =>
    match runOutcome with
    | .error e => .error e
    | .ok hresp =>
      if GetHeaderSSE req2.headers ≠ "" then
        if GetHeaderSSE hresp.Header ≠ GetHeaderSSE req2.headers then
          .error (.goError
            ("S3 did not honor encryption request: expected x-amz-server-side-encryption response header value " ++
              GetHeaderSSE req2.headers ++ " but got " ++ GetHeaderSSE hresp.Header))
        else .ok ()
      else .ok ()

/-- Oracle for one retry-loop iteration: the clock readings consumed by
`Next` and `HasNext`, and the outcome of the network query of that
iteration (`none` = nil error; `qstatus` is the HTTP status returned by
`queryWithStatus`, read only by `RestoreObject`). -/
structure IterOracle where
  nextNow : Int := 0
  nextNow2 : Int := 0
  hasNextNow : Int := 0
  qres : Option GoErr := none
  qstatus : Int := 200
deriving Repr, DecidableEq

/-- Result of a modelled retry loop: a returned value, the
`panic("unreachable")` after the loop, or an exhausted oracle list. -/
inductive LoopRes (α : Type) where
  | ret (val : α)
  | unreachablePanic
  | fuelOut
deriving Repr, DecidableEq

/-- Outcome of a bucket operation: its result, how many queries were
issued, and whether an attempt sequence was started. -/
structure OpOutcome (α : Type) where
  result : LoopRes α
  queries : Nat
  attemptStarted : Bool
deriving Repr, DecidableEq

/-- The loop shape of `RestoreObject`, `PutObjectTagging` and
`PutLifecycle`:
`for attempt := Start(); attempt.Next(err); { err = query(...);
if ShouldRetry(err) && attempt.HasNext() { continue }; return ... }`
followed by `panic("unreachable")`.  `HasNext` is evaluated (and may
mutate the attempt) only when `ShouldRetry` answers true, per Go's
short-circuit `&&`. -/
def retryReturnLoop (flag : Bool) (att : aws.FixedAttempt) (iters : List IterOracle)
    (queries : Nat) : LoopRes (Option GoErr × Int) × Nat :=
  match iters with
  | [] => (.fuelOut, queries)
  | it :: rest =>
    let step := att.Next it.nextNow it.nextNow2
    if step.2 then
      if ShouldRetry flag it.qres then
        let hn := step.1.HasNext it.hasNextNow
        if hn.2 then retryReturnLoop flag hn.1 rest (queries + 1)
        else (.ret (it.qres, it.qstatus), queries + 1)
      else (.ret (it.qres, it.qstatus), queries + 1)
    else (.unreachablePanic, queries)

/-- The loop shape of `GetObjectTagging` and `GetLifecycle`:
`for attempt := Start(); attempt.Next(err); { err = query(...);
if !ShouldRetry(err) { break } }` and then the post-loop check of the
last observed error. -/
def retryBreakLoop (flag : Bool) (att : aws.FixedAttempt) (err : Option GoErr)
    (iters : List IterOracle) (queries : Nat) : LoopRes (Option GoErr) × Nat :=
  match iters with
  | [] => (.fuelOut, queries)
  | it :: rest =>
    let step := att.Next it.nextNow it.nextNow2
    if step.2 then
      if ¬ ShouldRetry flag it.qres then (.ret it.qres, queries + 1)
      else retryBreakLoop flag step.1 it.qres rest (queries + 1)
    else (.ret err, queries)

/-- `Bucket.RestoreObject` from `s3/glacier.go`.  Control inputs are the
`RetryAlmostAllErrors` flag, the clock at `Start`, the outcome of
`xml.Marshal` and the per-iteration oracles; the result pairs
`statusCode == http.StatusAccepted` with the final error.  The request
construction feeds only the oracle-supplied query and is elided. -/
def RestoreObject (flag : Bool) (s3c : S3) (bucketName key : String) (days : Nat)
    (tier : String) (startNow : Int) (marshal : Except GoErr String)
    (iters : List IterOracle) : OpOutcome (Bool × Option GoErr) :=
  if ¬ s3c.v4sign then
    { result := .ret (false, some (.goError "SigV4 only")), queries := 0,
      attemptStarted := false }
  else
    match marshal with
    | .error e =>
      { result := .ret (false, some e), queries := 0, attemptStarted := false }
    | .ok _ =>
      let r := retryReturnLoop flag (s3c.AttemptStrategy.Start startNow) iters 0
      { result :=
          (match r.1 with
            | .ret (err, status) => .ret (decide (status = 202), err)
            | .unreachablePanic => .unreachablePanic
            | .fuelOut => .fuelOut),
        queries := r.2, attemptStarted := true }

/-- `Bucket.PutObjectTagging`. -/
def PutObjectTagging (flag : Bool) (s3c : S3) (bucketName key : String)
    (tagSet : List (String × String)) (startNow : Int) (marshal : Except GoErr String)
    (iters : List IterOracle) : OpOutcome (Option GoErr) :=
  if ¬ s3c.v4sign then
    { result := .ret (some (.goError "SigV4 only")), queries := 0, attemptStarted := false }
  else
    match marshal with
    | .error e => { result := .ret (some e), queries := 0, attemptStarted := false }
    | .ok _ =>
      let r := retryReturnLoop flag (s3c.AttemptStrategy.Start startNow) iters 0
      { result :=
          (match r.1 with
            | .ret (err, _) => .ret err
            | .unreachablePanic => .unreachablePanic
            | .fuelOut => .fuelOut),
        queries := r.2, attemptStarted := true }

/-- `Bucket.GetObjectTagging` (the decoded tag set is I/O-derived data
the claims never consult; the error component determines the result). -/
def GetObjectTagging (flag : Bool) (s3c : S3) (bucketName key : String) (startNow : Int)
    (iters : List IterOracle) : OpOutcome (Option GoErr) :=
  if ¬ s3c.v4sign then
    { result := .ret (some (.goError "SigV4 only")), queries := 0, attemptStarted := false }
  else
    let r := retryBreakLoop flag (s3c.AttemptStrategy.Start startNow) none iters 0
    { result := r.1, queries := r.2, attemptStarted := true }

/-- `Bucket.GetLifecycle`. -/
def GetLifecycle (flag : Bool) (s3c : S3) (bucketName : String) (startNow : Int)
    (iters : List IterOracle) : OpOutcome (Option GoErr) :=
  if ¬ s3c.v4sign then
    { result := .ret (some (.goError "SigV4 only")), queries := 0, attemptStarted := false }
  else
    let r := retryBreakLoop flag (s3c.AttemptStrategy.Start startNow) none iters 0
    { result := r.1, queries := r.2, attemptStarted := true }

/-- `Bucket.PutLifecycle` (the md5 digest write never fails and is
elided). -/
def PutLifecycle (flag : Bool) (s3c : S3) (bucketName : String) (startNow : Int)
    (marshal : Except GoErr String) (iters : List IterOracle) : OpOutcome (Option GoErr) :=
  if ¬ s3c.v4sign then
    { result := .ret (some (.goError "SigV4 only")), queries := 0, attemptStarted := false }
  else
    match marshal with
    | .error e => { result := .ret (some e), queries := 0, attemptStarted := false }
    | .ok _ =>
      let r := retryReturnLoop flag (s3c.AttemptStrategy.Start startNow) iters 0
      { result :=
          (match r.1 with
            | .ret (err, _) => .ret err
            | .unreachablePanic => .unreachablePanic
            | .fuelOut => .fuelOut),
        queries := r.2, attemptStarted := true }

/-- A SigV2-only client, for the C9 witness. -/
def witnessS3NoV4 : S3 :=
  { Auth := { AccessKey := "AK", SecretKey := "SK", token := "" }
    Region := { Name := "r", S3Endpoint := "https://s3.example.com" }
    v4sign := false }

/-- C5 counterexample input: a status-600 error with no code. -/
def status600Error : Error :=
  { StatusCode := 600, Code := "", Message := "", ResponseHeaders := [] }

/-- C5 witness input: a plain 503. -/
def status503Error : Error :=
  { StatusCode := 503, Code := "SlowDown", Message := "please slow down",
    ResponseHeaders := [] }

/-- C6 counterexample input: a 409 from an HCP server whose code is in the
always-retry list. -/
def hcpCodeListedError : Error :=
  { StatusCode := 409, Code := "NoSuchBucket", Message := "no such bucket",
    ResponseHeaders := [("Server", ["HCP V7.3"])] }

/-- C6 witness input: a 409 conflicting-operation error from an HCP
server. -/
def hcpConflictError : Error :=
  { StatusCode := 409, Code := "OperationAborted",
    Message := "Conflicting operation is under way",
    ResponseHeaders := [("Server", ["HCP V7.3"])] }

/-- Concrete SigV4 client for the dispatch witnesses. -/
def witnessS3 : S3 :=
  { Auth := { AccessKey := "AK", SecretKey := "SK", token := "" }
    Region := { Name := "r", S3Endpoint := "https://s3.example.com" }
    v4sign := true }

/-- Concrete unprepared request for the C8 witness. -/
def witnessReq : request :=
  { method := "", bucket := "b", path := "obj" }

/-- The request produced by preparing `witnessReq` (first `Date` value
`"D1"`). -/
def witnessReqPrepared : request :=
  { method := "GET", bucket := "b", path := "/b/obj", params := []
    headers := [("Host", ["s3.example.com"]), ("Date", ["D1"])]
    baseurl := "https://s3.example.com", prepared := true }

/-- Concrete request carrying a server-side-encryption header, for the C7
witness. -/
def witnessReqSSE : request :=
  { bucket := "b", path := "obj"
    headers := [("X-Amz-Server-Side-Encryption", ["AES256"])] }

/-- The request produced by preparing `witnessReqSSE` (`Date` value
`"D1"`). -/
def witnessReqSSEPrepared : request :=
  { method := "GET", bucket := "b", path := "/b/obj", params := []
    headers := [("X-Amz-Server-Side-Encryption", ["AES256"]),
                ("Host", ["s3.example.com"]), ("Date", ["D1"])]
    baseurl := "https://s3.example.com", prepared := true }

/-- A response without the requested encryption header. -/
def witnessRespNoSSE : HttpResponse := { Header := [] }

end s3

namespace aws

/-- `Next` returns false exactly when the attempt is not forced, the next
attempt would start at or after `end`, and at least `Min` attempts have
been made. -/
theorem next_false_iff (a : FixedAttempt) (n n2 : Int) :
    (a.Next n n2).2 = false ↔
      (a.force = false ∧ a.end_ ≤ n + a.nextSleep n ∧ a.strategy.Min ≤ a.count) := by
  unfold FixedAttempt.Next
  split
  · next hc =>
    simp only [Bool.and_eq_true, Bool.not_eq_true', decide_eq_true_eq,
      Bool.not_eq_eq_eq_not, Bool.not_true, decide_eq_false_iff_not, not_lt] at hc
    simp only []
    exact iff_of_true trivial ⟨hc.1.1, hc.1.2, hc.2⟩
  · next hc =>
    simp only [Bool.and_eq_true, Bool.not_eq_true', decide_eq_true_eq,
      Bool.not_eq_eq_eq_not, Bool.not_true, decide_eq_false_iff_not, not_lt,
      not_and] at hc
    constructor
    · intro hfalse
      exact absurd hfalse (by simp)
    · intro ⟨h1, h2, h3⟩
      exact absurd h3 (hc ⟨h1, h2⟩)

/-- When `Next` returns false it has not modified the attempt state. -/
theorem next_false_state (a : FixedAttempt) (n n2 : Int)
    (h : (a.Next n n2).2 = false) : (a.Next n n2).1 = a := by
  unfold FixedAttempt.Next at *
  split at h
  · split
    · rfl
    · next hc hc2 => exact absurd hc hc2
  · exact absurd h (by simp)

/-- The hypothetical start time of the next attempt is monotone in the
clock. -/
theorem add_nextSleep_mono (a : FixedAttempt) (n m : Int) (h : n ≤ m) :
    n + a.nextSleep n ≤ m + a.nextSleep m := by
  unfold FixedAttempt.nextSleep
  split <;> split <;> omega

/-- If `Next` returns false at time `n`, it also returns false at any
later time `m` (on the unchanged state). -/
theorem next_false_mono (a : FixedAttempt) (n n2 m m2 : Int)
    (h : (a.Next n n2).2 = false) (hnm : n ≤ m) : (a.Next m m2).2 = false := by
  rw [next_false_iff] at h ⊢
  exact ⟨h.1, le_trans h.2.1 (add_nextSleep_mono a n m hnm), h.2.2⟩

/-- After `Next` has returned false, every further `Next` call at times
not earlier than the failing one returns false. -/
theorem runNexts_all_false (a : FixedAttempt) (n n2 : Int) (ts : List (Int × Int))
    (h : (a.Next n n2).2 = false) (hts : ∀ p ∈ ts, n ≤ p.1) :
    ∀ b ∈ runNexts a ts, b = false := by
  induction ts generalizing a with
  | nil => simp [runNexts]
  | cons p rest ih =>
    intro b hb
    obtain ⟨m, m2⟩ := p
    have hmono : (a.Next m m2).2 = false :=
      next_false_mono a n n2 m m2 h (hts (m, m2) (by simp))
    have hstate : (a.Next m m2).1 = a := next_false_state a m m2 hmono
    simp only [runNexts, hstate, List.mem_cons] at hb
    rcases hb with hb | hb
    · rw [hb, hmono]
    · exact ih a h (fun q hq => hts q (List.mem_cons_of_mem _ hq)) b hb

/-- C1: `Next` computes `sleep = max(0, Delay − (now − last))`; it returns
false exactly when the force flag is clear, `now + sleep ≥ end` and the
attempts made so far are at least `Min`; in every other case it sleeps
(modelled by taking `now2` as the post-sleep clock, used only when this is
not the first attempt and `sleep > 0`), increments the attempt count,
records the new last-attempt time, clears the force flag, and returns
true. -/
theorem claim_next_spec (a : FixedAttempt) (now now2 : Int) :
    a.nextSleep now = max 0 (a.strategy.Delay - (now - a.last)) ∧
    ((a.Next now now2).2 = false ↔
      (a.force = false ∧ now + a.nextSleep now ≥ a.end_ ∧ a.count ≥ a.strategy.Min)) ∧
    ((a.Next now now2).2 = true →
      (a.Next now now2).1 =
        { a with
            force := false
            count := a.count + 1
            last := (if a.nextSleep now > 0 && a.count > 0 then now2 else now) }) := by
  refine ⟨?_, next_false_iff a now now2, ?_⟩
  · unfold FixedAttempt.nextSleep
    split <;> omega
  · unfold FixedAttempt.Next
    split
    · intro h
      exact absurd h (by simp)
    · intro _
      rfl

/-- Witness for C1 at a concrete attempt state and clock readings. -/
theorem claim_next_spec_witness :
    nextSpecWitnessAttempt.nextSleep 3 =
      max 0 (nextSpecWitnessAttempt.strategy.Delay - (3 - nextSpecWitnessAttempt.last)) ∧
    ((nextSpecWitnessAttempt.Next 3 11).2 = false ↔
      (nextSpecWitnessAttempt.force = false ∧
        3 + nextSpecWitnessAttempt.nextSleep 3 ≥ nextSpecWitnessAttempt.end_ ∧
        nextSpecWitnessAttempt.count ≥ nextSpecWitnessAttempt.strategy.Min)) ∧
    ((nextSpecWitnessAttempt.Next 3 11).2 = true →
      (nextSpecWitnessAttempt.Next 3 11).1 =
        { nextSpecWitnessAttempt with
            force := false
            count := nextSpecWitnessAttempt.count + 1
            last := (if nextSpecWitnessAttempt.nextSleep 3 > 0 &&
                       nextSpecWitnessAttempt.count > 0 then 11 else 3) }) :=
  claim_next_spec nextSpecWitnessAttempt 3 11

/-- C2: whenever `HasNext` returns true, the immediately following `Next`
call on the resulting state returns true, for arbitrary clock readings at
the `Next` call (i.e. regardless of how much clock time elapses between
the two calls). -/
theorem claim_hasNext_next_consistent (a : FixedAttempt) (now n n2 : Int)
    (h : (a.HasNext now).2 = true) :
    ((a.HasNext now).1.Next n n2).2 = true := by
  revert h
  unfold FixedAttempt.HasNext
  split
  · next hc =>
    intro _
    show (a.Next n n2).2 = true
    simp only [Bool.or_eq_true, decide_eq_true_eq] at hc
    by_contra hfalse
    rw [Bool.not_eq_true, next_false_iff] at hfalse
    rcases hc with hforce | hmin
    · rw [hfalse.1] at hforce
      exact Bool.false_ne_true hforce
    · omega
  · split
    · intro _
      show (({ a with force := true }).Next n n2).2 = true
      by_contra hfalse
      rw [Bool.not_eq_true, next_false_iff] at hfalse
      exact absurd hfalse.1 (by simp)
    · intro h
      exact absurd h (by simp)

/-- Witness for C2: `HasNext` answers true at time 5, and `Next` run much
later (time 100000) still returns true. -/
theorem claim_hasNext_next_consistent_witness :
    (hasNextWitnessAttempt.HasNext 5).2 = true ∧
    ((hasNextWitnessAttempt.HasNext 5).1.Next 100000 100000).2 = true :=
  ⟨by decide, claim_hasNext_next_consistent hasNextWitnessAttempt 5 100000 100000 (by decide)⟩

/-- C3 counterexample: `HasNext` is not state-preserving — on this state
it returns true and flips the force flag from false to true. -/
theorem claim_hasNext_pure_counterexample :
    (hasNextMutationAttempt.HasNext 0).2 = true ∧
    (hasNextMutationAttempt.HasNext 0).1 ≠ hasNextMutationAttempt := by
  decide

/-- C3 amended: `HasNext` returns true exactly when the force flag is set,
or `Min` attempts have not yet been made, or a hypothetical next attempt
would still start before `end`; but it is not state-preserving: when the
answer comes from the time-based check it sets the force flag (and leaves
the state unchanged otherwise). -/
theorem claim_hasNext_characterization (a : FixedAttempt) (now : Int) :
    ((a.HasNext now).2 =
      (a.force || decide (a.strategy.Min > a.count) ||
        decide (now + a.nextSleep now < a.end_))) ∧
    ((a.HasNext now).1 =
      (if a.force = false ∧ ¬(a.strategy.Min > a.count) ∧ now + a.nextSleep now < a.end_
       then { a with force := true } else a)) := by
  rcases hf : a.force with _ | _ <;>
    by_cases hm : a.strategy.Min > a.count <;>
    by_cases ht : now + a.nextSleep now < a.end_ <;>
    simp [FixedAttempt.HasNext, hf, hm, ht]

/-- C4: over any monotonically timed sequence of `Next` calls, the result
list never has a `false` followed (anywhere later) by a `true`: exhaustion
is terminal. -/
theorem claim_next_exhaustion_terminal (a : FixedAttempt) (ts : List (Int × Int))
    (hmono : ts.Pairwise (fun p q => p.1 ≤ q.1)) :
    (runNexts a ts).Pairwise (fun x y => x = false → y = false) := by
  induction ts generalizing a with
  | nil => simp [runNexts]
  | cons p rest ih =>
    obtain ⟨n, n2⟩ := p
    rw [List.pairwise_cons] at hmono
    simp only [runNexts, List.pairwise_cons]
    refine ⟨?_, ih _ hmono.2⟩
    intro y hy hfalse
    rw [next_false_state a n n2 hfalse] at hy
    exact runNexts_all_false a n n2 rest hfalse (fun q hq => hmono.1 q hq) y hy

/-- Witness for C4 on a concrete monotone clock sequence. -/
theorem claim_next_exhaustion_terminal_witness :
    ([((0 : Int), (0 : Int)), (1, 1), (2, 2)].Pairwise (fun p q => p.1 ≤ q.1)) ∧
    (runNexts exhaustionWitnessAttempt [(0, 0), (1, 1), (2, 2)]).Pairwise
      (fun x y => x = false → y = false) :=
  ⟨by decide, claim_next_exhaustion_terminal exhaustionWitnessAttempt _ (by decide)⟩

end aws

namespace s3

/-- C5 counterexample: a status-600 `*Error` (status ≥ 500) is NOT retried
under the conservative policy, because `shouldRetrySpecific` only retries
the 500–599 band. -/
theorem claim_retry_5xx_counterexample :
    status600Error.StatusCode ≥ 500 ∧
    ShouldRetry false (some (GoErr.s3 status600Error)) = false := by
  decide

/-- C5 amended: every `*Error` with status ≥ 500 is retried under the
permissive policy, and every `*Error` whose status lies in 500–599 is
also retried under the conservative policy (whose 500-series check is
bounded above by 599). -/
theorem claim_retry_5xx (e : Error) (h5 : 500 ≤ e.StatusCode) :
    ShouldRetry true (some (GoErr.s3 e)) = true ∧
    (e.StatusCode ≤ 599 → ShouldRetry false (some (GoErr.s3 e)) = true) := by
  constructor
  · have hall : ShouldRetry true (some (GoErr.s3 e)) =
        (if e.StatusCode < 500 then
          (if retryCodes.contains e.Code then true
           else if e.StatusCode = 429 then true
           else if e.StatusCode = 409 then shouldRetryConflictError e
           else if e.StatusCode = 400 && e.Code = "" then true
           else false)
        else true) := rfl
    rw [hall, if_neg (by omega)]
  · intro h9
    have hspec : ShouldRetry false (some (GoErr.s3 e)) =
        (if e.Message = "net/http: request canceled while waiting for connection" then true
         else if e.Message = "use of closed network connection" then true
         else shouldRetrySpecificS3 e) := rfl
    have h59 : shouldRetrySpecificS3 e = true := by
      unfold shouldRetrySpecificS3
      split
      · rfl
      · rw [if_pos (by simp [h5, h9])]
    rw [hspec]
    split
    · rfl
    · split
      · rfl
      · exact h59

/-- Witness for C5 at the concrete status-503 error under both
policies. -/
theorem claim_retry_5xx_witness :
    500 ≤ status503Error.StatusCode ∧
    (ShouldRetry true (some (GoErr.s3 status503Error)) = true ∧
      (status503Error.StatusCode ≤ 599 →
        ShouldRetry false (some (GoErr.s3 status503Error)) = true)) :=
  ⟨by decide, claim_retry_5xx status503Error (by decide)⟩

/-- C6 counterexample: a 409 from an HCP server whose `Code` is
`NoSuchBucket` is retried by both policies (the code-based switch fires
before the conflict special case), although the claim requires false for
every HCP 409 whose code is not `OperationAborted`. -/
theorem claim_retry_conflict_counterexample :
    hcpCodeListedError.StatusCode = 409 ∧
    goStartsWith (Header.Get hcpCodeListedError.ResponseHeaders "Server") "HCP" = true ∧
    hcpCodeListedError.Code ≠ "OperationAborted" ∧
    ShouldRetry true (some (GoErr.s3 hcpCodeListedError)) = true ∧
    ShouldRetry false (some (GoErr.s3 hcpCodeListedError)) = true := by
  decide

/-- C6 amended: for a 409 `*Error` whose `Code` is not one of the four
always-retryable codes and whose message is not one of the two literal
transport strings, `ShouldRetry` (under either policy) returns true when
the response's `Server` header does not begin with `HCP`, and otherwise
returns true exactly when the code is `OperationAborted` and the
lower-cased message contains `conflicting operation`. -/
theorem claim_retry_conflict (e : Error) (h409 : e.StatusCode = 409)
    (hcode : e.Code ∉ retryCodes)
    (hmsg1 : e.Message ≠ "net/http: request canceled while waiting for connection")
    (hmsg2 : e.Message ≠ "use of closed network connection")
    (flag : Bool) :
    ShouldRetry flag (some (GoErr.s3 e)) =
      (if goStartsWith (Header.Get e.ResponseHeaders "Server") "HCP" then
        (decide (e.Code = "OperationAborted") &&
          goContains (goToLower e.Message) "conflicting operation")
      else true) := by
  have hconflict : shouldRetryConflictError e =
      (if goStartsWith (Header.Get e.ResponseHeaders "Server") "HCP" then
        (decide (e.Code = "OperationAborted") &&
          goContains (goToLower e.Message) "conflicting operation")
      else true) := by
    unfold shouldRetryConflictError
    rw [if_neg (by omega)]
    by_cases hs : goStartsWith (Header.Get e.ResponseHeaders "Server") "HCP" = true
    · rw [if_neg (by simp [hs]), if_pos hs]
      unfold Error.Error
      split
      · next hcc =>
        simp only [Bool.and_eq_true, decide_eq_true_eq] at hcc
        simp [hcc.1, hcc.2]
      · next hcc =>
        simp only [Bool.and_eq_true, decide_eq_true_eq, not_and] at hcc
        by_cases hc1 : e.Code = "OperationAborted"
        · simp [hc1, hcc hc1]
        · simp [hc1]
    · rw [if_pos (by simp [hs]), if_neg hs]
  have hlist : ¬ (retryCodes.contains e.Code = true) := by
    simpa using hcode
  rcases flag with _ | _
  · have hspec : ShouldRetry false (some (GoErr.s3 e)) =
        (if e.Message = "net/http: request canceled while waiting for connection" then true
         else if e.Message = "use of closed network connection" then true
         else shouldRetrySpecificS3 e) := rfl
    rw [hspec, if_neg hmsg1, if_neg hmsg2]
    unfold shouldRetrySpecificS3
    rw [if_neg hlist, if_neg (by rw [h409]; decide), if_neg (by omega), if_pos h409]
    exact hconflict
  · have hall : ShouldRetry true (some (GoErr.s3 e)) =
        (if e.StatusCode < 500 then
          (if retryCodes.contains e.Code then true
           else if e.StatusCode = 429 then true
           else if e.StatusCode = 409 then shouldRetryConflictError e
           else if e.StatusCode = 400 && e.Code = "" then true
           else false)
        else true) := rfl
    rw [hall, if_pos (by omega), if_neg hlist, if_neg (by omega), if_pos h409]
    exact hconflict

/-- Witness for C6 at a concrete HCP conflicting-operation 409 under the
permissive policy. -/
theorem claim_retry_conflict_witness :
    hcpConflictError.StatusCode = 409 ∧
    hcpConflictError.Code ∉ retryCodes ∧
    hcpConflictError.Message ≠ "net/http: request canceled while waiting for connection" ∧
    hcpConflictError.Message ≠ "use of closed network connection" ∧
    ShouldRetry true (some (GoErr.s3 hcpConflictError)) =
      (if goStartsWith (Header.Get hcpConflictError.ResponseHeaders "Server") "HCP" then
        (decide (hcpConflictError.Code = "OperationAborted") &&
          goContains (goToLower hcpConflictError.Message) "conflicting operation")
      else true) :=
  ⟨by decide, by decide, by decide, by decide,
    claim_retry_conflict hcpConflictError (by decide) (by decide) (by decide) (by decide) true⟩

/-- Setting one key leaves lookups of every other key unchanged. -/
theorem headerLookup_headerSet_ne (h : Header) (k k' : String) (v : List String)
    (hne : k' ≠ k) : headerLookup (headerSet h k v) k' = headerLookup h k' := by
  induction h with
  | nil => simp [headerSet, headerLookup, Ne.symm hne]
  | cons p t ih =>
    obtain ⟨k0, v0⟩ := p
    by_cases h0 : k0 = k
    · subst h0
      simp [headerSet, headerLookup, hne, Ne.symm hne]
    · simp only [headerSet, if_neg h0, headerLookup]
      by_cases h1 : k0 = k'
      · simp [h1]
      · simp [h1, ih]

/-- The header mutations of `prepare` touch only the `Host`, `Date`,
security-token and authorization headers. -/
theorem headerLookup_prepareHeaders_ne (s3 : S3) (m sp : String) (ps headers : Header)
    (host gd k : String)
    (h1 : k ≠ "Host") (h2 : k ≠ "Date") (h3 : k ≠ "X-Amz-Security-Token")
    (h4 : k ≠ "Authorization") :
    headerLookup (prepareHeaders s3 m sp ps headers host gd) k = headerLookup headers k := by
  unfold prepareHeaders signV2
  by_cases hv : s3.v4sign = false
  · rw [if_pos hv]
    by_cases ht : s3.Auth.Token ≠ ""
    · rw [if_pos ht, headerLookup_headerSet_ne _ _ _ _ h4,
        headerLookup_headerSet_ne _ _ _ _ h3, headerLookup_headerSet_ne _ _ _ _ h2,
        headerLookup_headerSet_ne _ _ _ _ h1]
    · rw [if_neg ht, headerLookup_headerSet_ne _ _ _ _ h4,
        headerLookup_headerSet_ne _ _ _ _ h2, headerLookup_headerSet_ne _ _ _ _ h1]
  · rw [if_neg hv]
    by_cases ht : s3.Auth.Token ≠ ""
    · rw [if_pos ht, headerLookup_headerSet_ne _ _ _ _ h3,
        headerLookup_headerSet_ne _ _ _ _ h2, headerLookup_headerSet_ne _ _ _ _ h1]
    · rw [if_neg ht, headerLookup_headerSet_ne _ _ _ _ h2,
        headerLookup_headerSet_ne _ _ _ _ h1]

/-- The bucket block never touches headers or the prepared flag. -/
theorem mungeBucket_ok_fields (s3 : S3) (r r' : request) (sp : String)
    (h : mungeBucket s3 r = .ok (r', sp)) :
    r'.headers = r.headers ∧ r'.prepared = r.prepared := by
  unfold mungeBucket at h
  repeat' split at h
  all_goals
    first
    | (simp only [Except.ok.injEq, Prod.mk.injEq] at h
       obtain ⟨h1, h2⟩ := h
       subst h1
       exact ⟨rfl, rfl⟩)
    | exact Except.noConfusion h

/-- The method default never touches headers or the prepared flag. -/
theorem mungeDefaultMethod_fields (r : request) :
    (mungeDefaultMethod r).headers = r.headers ∧
    (mungeDefaultMethod r).prepared = r.prepared := by
  unfold mungeDefaultMethod
  split <;> simp

/-- The leading-slash normalization never touches headers or the prepared
flag. -/
theorem mungeLeadingSlash_fields (r : request) :
    (mungeLeadingSlash r).headers = r.headers ∧
    (mungeLeadingSlash r).prepared = r.prepared := by
  unfold mungeLeadingSlash
  split <;> simp

/-- The prepared-block of `prepare` never touches the headers, and leaves
the request marked prepared. -/
theorem prepareMunge_ok_fields (s3 : S3) (req0 : request) (r : request) (sp : String)
    (h : prepareMunge s3 req0 = .ok (r, sp)) :
    r.headers = req0.headers ∧ r.prepared = true := by
  unfold prepareMunge at h
  split at h
  · next hp =>
    simp only [Except.ok.injEq, Prod.mk.injEq] at h
    obtain ⟨h1, _⟩ := h
    subst h1
    exact ⟨rfl, hp⟩
  · have hb := mungeBucket_ok_fields s3 _ r sp h
    have hs := mungeLeadingSlash_fields (mungeDefaultMethod (mungeSetPrepared req0))
    have hm := mungeDefaultMethod_fields (mungeSetPrepared req0)
    refine ⟨?_, ?_⟩
    · rw [hb.1, hs.1, hm.1]
      rfl
    · rw [hb.2, hs.2, hm.2]
      rfl

/-- Elimination form of a successful `prepare`. -/
theorem prepare_ok_elim {s3 : S3} {req0 : request} {gd : String} {req2 : request}
    (h : prepare s3 req0 gd = .ok req2) :
    ∃ r sp host, prepareMunge s3 req0 = .ok (r, sp) ∧
      parseURLHost r.baseurl = some host ∧
      req2 = { r with headers := prepareHeaders s3 r.method sp r.params r.headers host gd } := by
  unfold prepare at h
  cases hm : prepareMunge s3 req0 with
  | error e =>
    rw [hm] at h
    simp at h
  | ok p =>
    obtain ⟨r, sp⟩ := p
    rw [hm] at h
    simp only [] at h
    unfold prepareFinish at h
    cases hp : parseURLHost r.baseurl with
    | none =>
      rw [hp] at h
      simp at h
    | some host =>
      rw [hp] at h
      simp only [Except.ok.injEq] at h
      exact ⟨r, sp, host, rfl, hp, h.symm⟩

/-- A successful `prepare` does not change the request's server-side
encryption header. -/
theorem prepare_preserves_sse {s3 : S3} {req0 : request} {gd : String} {req2 : request}
    (h : prepare s3 req0 gd = .ok req2) :
    GetHeaderSSE req2.headers = GetHeaderSSE req0.headers := by
  obtain ⟨r, sp, host, hm, hp, hreq⟩ := prepare_ok_elim h
  have hmh := (prepareMunge_ok_fields s3 req0 r sp hm).1
  subst hreq
  show GetHeaderSSE (prepareHeaders s3 r.method sp r.params r.headers host gd) = _
  unfold GetHeaderSSE
  rw [headerLookup_prepareHeaders_ne s3 r.method sp r.params r.headers host gd _
    (by decide) (by decide) (by decide) (by decide), hmh]

/-- C7: when `prepare` succeeds and the (prepared) request carries a
non-empty server-side-encryption header, a successful transport run still
yields an error from `query` exactly when the response does not carry the
same encryption header value: the mismatch is a terminal error even
though the transport call succeeded. -/
theorem claim_query_sse_verification (s3 : S3) (req : request) (gd : String)
    (req2 : request) (resp : HttpResponse)
    (hprep : prepare s3 req gd = .ok req2)
    (hsse : GetHeaderSSE req.headers ≠ "") :
    ((∃ e, query s3 req gd (.ok resp) = .error e) ↔
      GetHeaderSSE resp.Header ≠ GetHeaderSSE req.headers) := by
  have hpres := prepare_preserves_sse hprep
  unfold query
  rw [hprep]
  simp only [hpres]
  rw [if_pos hsse]
  by_cases hm : GetHeaderSSE resp.Header = GetHeaderSSE req.headers
  · rw [if_neg (by simp [hm])]
    simp [hm]
  · rw [if_pos hm]
    simp [hm]

/-- Witness for C7: the SSE-requesting request prepared against the
concrete client, with a response lacking the header. -/
theorem claim_query_sse_verification_witness :
    prepare witnessS3 witnessReqSSE "D1" = .ok witnessReqSSEPrepared ∧
    GetHeaderSSE witnessReqSSE.headers ≠ "" ∧
    ((∃ e, query witnessS3 witnessReqSSE "D1" (.ok witnessRespNoSSE) = .error e) ↔
      GetHeaderSSE witnessRespNoSSE.Header ≠ GetHeaderSSE witnessReqSSE.headers) :=
  ⟨by rfl, by decide,
    claim_query_sse_verification witnessS3 witnessReqSSE "D1" witnessReqSSEPrepared
      witnessRespNoSSE (by rfl) (by decide)⟩

/-- C8: a second `prepare` on an already-prepared request succeeds and
leaves the caller-supplied semantic fields — method, path, params,
baseurl — unchanged (in particular the leading slash and the bucket
prefix are not applied twice); only the `Host`, `Date`, security-token
and authorization headers may be recomputed. -/
theorem claim_prepare_idempotent (s3 : S3) (req : request) (gd gd2 : String)
    (req2 : request) (hprep : prepare s3 req gd = .ok req2) :
    ∃ req3, prepare s3 req2 gd2 = .ok req3 ∧
      req3.method = req2.method ∧ req3.path = req2.path ∧
      req3.params = req2.params ∧ req3.baseurl = req2.baseurl ∧
      req3.prepared = true ∧
      ∀ k, k ≠ "Host" → k ≠ "Date" → k ≠ "X-Amz-Security-Token" → k ≠ "Authorization" →
        headerLookup req3.headers k = headerLookup req2.headers k := by
  obtain ⟨r, sp, host, hm, hp, hreq⟩ := prepare_ok_elim hprep
  have hprep2 : req2.prepared = true := by
    subst hreq
    exact (prepareMunge_ok_fields s3 req r sp hm).2
  have hbase : req2.baseurl = r.baseurl := by
    subst hreq
    rfl
  have hm2 : prepareMunge s3 req2 = .ok (req2, req2.path) := by
    unfold prepareMunge
    rw [if_pos hprep2]
  refine ⟨{ req2 with
      headers := prepareHeaders s3 req2.method req2.path req2.params req2.headers host gd2 },
    ?_, rfl, rfl, rfl, rfl, hprep2, ?_⟩
  · unfold prepare
    rw [hm2]
    simp only []
    unfold prepareFinish
    rw [hbase, hp]
  · intro k h1 h2 h3 h4
    exact headerLookup_prepareHeaders_ne s3 req2.method req2.path req2.params req2.headers
      host gd2 k h1 h2 h3 h4

/-- Witness for C8 on the concrete client and request. -/
theorem claim_prepare_idempotent_witness :
    prepare witnessS3 witnessReq "D1" = .ok witnessReqPrepared ∧
    ∃ req3, prepare witnessS3 witnessReqPrepared "D2" = .ok req3 ∧
      req3.method = witnessReqPrepared.method ∧ req3.path = witnessReqPrepared.path ∧
      req3.params = witnessReqPrepared.params ∧ req3.baseurl = witnessReqPrepared.baseurl ∧
      req3.prepared = true ∧
      ∀ k, k ≠ "Host" → k ≠ "Date" → k ≠ "X-Amz-Security-Token" → k ≠ "Authorization" →
        headerLookup req3.headers k = headerLookup witnessReqPrepared.headers k :=
  ⟨by rfl,
    claim_prepare_idempotent witnessS3 witnessReq "D1" "D2" witnessReqPrepared (by rfl)⟩

/-- C9: when the client's `v4sign` flag is false, RestoreObject,
PutObjectTagging, GetObjectTagging, GetLifecycle and PutLifecycle all
return a `SigV4 only` error immediately: no attempt sequence is started
and no query is issued (the model functions are pure, so no other state
exists to change). -/
theorem claim_sigv4_only_guard (flag : Bool) (s3c : S3) (bucketName key tier : String)
    (days : Nat) (tagSet : List (String × String)) (startNow : Int)
    (marshal : Except GoErr String) (iters : List IterOracle)
    (hv : s3c.v4sign = false) :
    RestoreObject flag s3c bucketName key days tier startNow marshal iters =
      { result := .ret (false, some (.goError "SigV4 only")), queries := 0,
        attemptStarted := false } ∧
    PutObjectTagging flag s3c bucketName key tagSet startNow marshal iters =
      { result := .ret (some (.goError "SigV4 only")), queries := 0,
        attemptStarted := false } ∧
    GetObjectTagging flag s3c bucketName key startNow iters =
      { result := .ret (some (.goError "SigV4 only")), queries := 0,
        attemptStarted := false } ∧
    GetLifecycle flag s3c bucketName startNow iters =
      { result := .ret (some (.goError "SigV4 only")), queries := 0,
        attemptStarted := false } ∧
    PutLifecycle flag s3c bucketName startNow marshal iters =
      { result := .ret (some (.goError "SigV4 only")), queries := 0,
        attemptStarted := false } := by
  unfold RestoreObject PutObjectTagging GetObjectTagging GetLifecycle PutLifecycle
  refine ⟨?_, ?_, ?_, ?_, ?_⟩ <;> rw [if_pos (by simp [hv])]

/-- Witness for C9 at a concrete SigV2-only client. -/
theorem claim_sigv4_only_guard_witness :
    witnessS3NoV4.v4sign = false ∧
    RestoreObject true witnessS3NoV4 "b" "k" 3 "Standard" 0 (.ok "") [] =
      { result := .ret (false, some (.goError "SigV4 only")), queries := 0,
        attemptStarted := false } ∧
    PutObjectTagging true witnessS3NoV4 "b" "k" [] 0 (.ok "") [] =
      { result := .ret (some (.goError "SigV4 only")), queries := 0,
        attemptStarted := false } ∧
    GetObjectTagging true witnessS3NoV4 "b" "k" 0 [] =
      { result := .ret (some (.goError "SigV4 only")), queries := 0,
        attemptStarted := false } ∧
    GetLifecycle true witnessS3NoV4 "b" 0 [] =
      { result := .ret (some (.goError "SigV4 only")), queries := 0,
        attemptStarted := false } ∧
    PutLifecycle true witnessS3NoV4 "b" 0 (.ok "") [] =
      { result := .ret (some (.goError "SigV4 only")), queries := 0,
        attemptStarted := false } :=
  ⟨rfl, claim_sigv4_only_guard true witnessS3NoV4 "b" "k" "Standard" 3 [] 0 (.ok "") [] rfl⟩

/-- C10: `NewWithCustomRootCAsV4` unconditionally recurses into itself
with the same arguments, so no amount of fuel produces a result: the
function never terminates normally and in particular never returns an
`S3` client (with or without `v4sign` set). -/
theorem claim_newWithCustomRootCAsV4_never_returns (fuel : Nat) (auth : aws.Auth)
    (region : aws.Region) :
    NewWithCustomRootCAsV4 fuel auth region = none := by
  induction fuel with
  | zero => rfl
  | succ n ih =>
    unfold NewWithCustomRootCAsV4
    rw [ih]
    rfl

end s3
